import Mathlib

/-!
# Consensus parameters of `src/CryptoNoteConfig.hpp`

A shallow embedding of the constant table `cn::parameters` and of the
`static_assert`s that guard it.  Every constant is a natural number together
with the width of the unsigned C++ type that stores it; the expressions of the
header are evaluated with explicit reduction modulo `2 ^ width` wherever the
C++ expression is computed in an unsigned type.
-/

namespace cn.parameters

/-! ## Machine arithmetic -/

/-- Conversion of a mathematical value to an unsigned type of `bits` bits. -/
def wrap (bits n : Nat) : Nat := n % 2 ^ bits

/-- Unsigned multiplication in a type of `bits` bits. -/
def umul (bits a b : Nat) : Nat := (a * b) % 2 ^ bits

/-- Unsigned subtraction in a type of `bits` bits. -/
def usub (bits a b : Nat) : Nat := (a + (2 ^ bits - b % 2 ^ bits)) % 2 ^ bits

/-- Modelled from the spec: the width of `Height`.  Its typedef is in
`CryptoNote.hpp`, which the header includes and which is not among the sources;
upstream it is `typedef uint32_t Height;`. -/
def HEIGHT_BITS : Nat := 32

/-- Modelled from the spec: the width of `Timestamp` (`CryptoNote.hpp`, upstream
`typedef uint32_t Timestamp;`). -/
def TIMESTAMP_BITS : Nat := 32

/-- Modelled from the spec: the width of `Amount` and `Difficulty`
(`CryptoNote.hpp`, upstream `uint64_t`). -/
def AMOUNT_BITS : Nat := 64

/-- Width of `size_t` and `uint64_t` on the 64-bit targets of the project. -/
def SIZE_BITS : Nat := 64

/-- Width of `unsigned`. -/
def UNSIGNED_BITS : Nat := 32

/-! ## The constants, in the order of the header -/

/-- The hex text of the genesis coinbase transaction, line 23. -/
def GENESIS_COINBASE_TX_HEX : String :=
  "010a01ff000180c0a8ca9a3a029b2e4c0281c0b02e7c53291a94d1d0cbff8883f8024f5142ee494ffbbd0880712101827b04a29be01f599850ee3fa1140a05bc4292504f0b820f27ca814b0656c7ec"

def UPGRADE_HEIGHT_V2 : Nat := wrap HEIGHT_BITS 546603
def UPGRADE_HEIGHT_V3 : Nat := wrap HEIGHT_BITS 985549
def UPGRADE_HEIGHT_V4 : Nat := wrap HEIGHT_BITS 1792117
def KEY_IMAGE_SUBGROUP_CHECKING_HEIGHT : Nat := wrap HEIGHT_BITS 1267000

def BLOCK_VERSION_AMETHYST : Nat := wrap 8 4
def TRANSACTION_VERSION_AMETHYST : Nat := wrap 8 4

def MINIMUM_ANONYMITY_AMETHYST : Nat := wrap SIZE_BITS 3

def MONEY_SUPPLY : Nat := wrap AMOUNT_BITS 100000000000
def EMISSION_SPEED_FACTOR : Nat := wrap UNSIGNED_BITS 18

def DISPLAY_DECIMAL_POINT : Nat := wrap SIZE_BITS 2
def MIN_DUST_THRESHOLD : Nat := wrap AMOUNT_BITS 1000000
def MAX_DUST_THRESHOLD : Nat := wrap AMOUNT_BITS 30000000000000000
def SELF_DUST_THRESHOLD : Nat := wrap AMOUNT_BITS 1000

def ADDRESS_BASE58_PREFIX : Nat := wrap 64 86
def ADDRESS_BASE58_PREFIX_AMETHYST : Nat := wrap 64 572238
def SENDPROOF_BASE58_PREFIX : Nat := wrap 64 86762904402638
def VIEWONLYWALLET_BASE58_PREFIX : Nat := wrap 64 3904523549390

def DIFFICULTY_TARGET : Nat := wrap TIMESTAMP_BITS 120
/-- The literal `24 * 60 * 60` is an `int`; the division by a `Timestamp` is
carried out in the unsigned type and the quotient is stored in a `Height`. -/
def EXPECTED_NUMBER_OF_BLOCKS_PER_DAY : Nat :=
  wrap HEIGHT_BITS (wrap TIMESTAMP_BITS (24 * 60 * 60) / DIFFICULTY_TARGET)

def MINIMUM_DIFFICULTY_V1 : Nat := wrap AMOUNT_BITS 1
def MINIMUM_DIFFICULTY : Nat := wrap AMOUNT_BITS 100000

def DIFFICULTY_WINDOW : Nat := wrap HEIGHT_BITS 720
def DIFFICULTY_CUT : Nat := wrap HEIGHT_BITS 60
def DIFFICULTY_LAG : Nat := wrap HEIGHT_BITS 15

def UPGRADE_VOTING_PERCENT : Nat := wrap HEIGHT_BITS 90
def UPGRADE_VOTING_WINDOW : Nat := EXPECTED_NUMBER_OF_BLOCKS_PER_DAY
def UPGRADE_WINDOW : Nat := umul HEIGHT_BITS EXPECTED_NUMBER_OF_BLOCKS_PER_DAY 7

def BLOCK_FUTURE_TIME_LIMIT : Nat := wrap TIMESTAMP_BITS (60 * 60 * 2)
def BLOCKCHAIN_TIMESTAMP_CHECK_WINDOW_V1_3 : Nat := wrap HEIGHT_BITS 60
def BLOCKCHAIN_TIMESTAMP_CHECK_WINDOW : Nat := wrap HEIGHT_BITS 59

def MAX_BLOCK_NUMBER : Nat := wrap HEIGHT_BITS 500000000

def LOCKED_TX_ALLOWED_DELTA_BLOCKS : Nat := wrap HEIGHT_BITS 1

/-- The `constexpr` function of the header: a product of two 32-bit unsigned
values, computed in 32 bits. -/
def LOCKED_TX_ALLOWED_DELTA_SECONDS (difficulty_target : Nat) : Nat :=
  umul TIMESTAMP_BITS difficulty_target LOCKED_TX_ALLOWED_DELTA_BLOCKS

def MINED_MONEY_UNLOCK_WINDOW : Nat := wrap HEIGHT_BITS 10

def MAX_HEADER_SIZE : Nat := wrap SIZE_BITS 2048
def BLOCK_CAPACITY_VOTE_MIN : Nat := wrap SIZE_BITS (100 * 1000)
def BLOCK_CAPACITY_VOTE_MAX : Nat := wrap SIZE_BITS (2000 * 1000)
def BLOCK_CAPACITY_VOTE_WINDOW : Nat := wrap HEIGHT_BITS 11

def MINIMUM_SIZE_MEDIAN_V3 : Nat := wrap SIZE_BITS 100000
def MINIMUM_SIZE_MEDIAN_V2 : Nat := wrap SIZE_BITS 20000
def MINIMUM_SIZE_MEDIAN_V1 : Nat := wrap SIZE_BITS 10000

def MEIDAN_BLOCK_SIZE_WINDOW : Nat := wrap HEIGHT_BITS 100
def MAX_BLOCK_SIZE_INITIAL : Nat := wrap SIZE_BITS (20 * 1024)
def MAX_BLOCK_SIZE_GROWTH_PER_YEAR : Nat := wrap SIZE_BITS (100 * 1024)

/-! ## The constant table as a value

`Header` holds one field per constant that takes part in a window, a bound or
a `static_assert`; `shipped` is the table of the header as written.  Replacing
the defining value of a constant is a record update of `shipped`.  None of the
constants updated below is read by the definition of another constant. -/

structure Header where
  EMISSION_SPEED_FACTOR : Nat
  DIFFICULTY_TARGET : Nat
  EXPECTED_NUMBER_OF_BLOCKS_PER_DAY : Nat
  DIFFICULTY_WINDOW : Nat
  DIFFICULTY_CUT : Nat
  DIFFICULTY_LAG : Nat
  UPGRADE_VOTING_PERCENT : Nat
  UPGRADE_VOTING_WINDOW : Nat
  UPGRADE_WINDOW : Nat
  BLOCKCHAIN_TIMESTAMP_CHECK_WINDOW_V1_3 : Nat
  BLOCKCHAIN_TIMESTAMP_CHECK_WINDOW : Nat
  BLOCK_CAPACITY_VOTE_MIN : Nat
  BLOCK_CAPACITY_VOTE_MAX : Nat
  BLOCK_CAPACITY_VOTE_WINDOW : Nat
  MEIDAN_BLOCK_SIZE_WINDOW : Nat
  deriving DecidableEq, Repr

/-- The table with the values the header gives its constants. -/
def shipped : Header where
  EMISSION_SPEED_FACTOR := EMISSION_SPEED_FACTOR
  DIFFICULTY_TARGET := DIFFICULTY_TARGET
  EXPECTED_NUMBER_OF_BLOCKS_PER_DAY := EXPECTED_NUMBER_OF_BLOCKS_PER_DAY
  DIFFICULTY_WINDOW := DIFFICULTY_WINDOW
  DIFFICULTY_CUT := DIFFICULTY_CUT
  DIFFICULTY_LAG := DIFFICULTY_LAG
  UPGRADE_VOTING_PERCENT := UPGRADE_VOTING_PERCENT
  UPGRADE_VOTING_WINDOW := UPGRADE_VOTING_WINDOW
  UPGRADE_WINDOW := UPGRADE_WINDOW
  BLOCKCHAIN_TIMESTAMP_CHECK_WINDOW_V1_3 := BLOCKCHAIN_TIMESTAMP_CHECK_WINDOW_V1_3
  BLOCKCHAIN_TIMESTAMP_CHECK_WINDOW := BLOCKCHAIN_TIMESTAMP_CHECK_WINDOW
  BLOCK_CAPACITY_VOTE_MIN := BLOCK_CAPACITY_VOTE_MIN
  BLOCK_CAPACITY_VOTE_MAX := BLOCK_CAPACITY_VOTE_MAX
  BLOCK_CAPACITY_VOTE_WINDOW := BLOCK_CAPACITY_VOTE_WINDOW
  MEIDAN_BLOCK_SIZE_WINDOW := MEIDAN_BLOCK_SIZE_WINDOW

/-! ## The `static_assert`s, one definition per assertion -/

/-- Line 43: `EMISSION_SPEED_FACTOR > 0 && EMISSION_SPEED_FACTOR <= 8 * sizeof(uint64_t)`. -/
def assert_EMISSION_SPEED_FACTOR (p : Header) : Bool :=
  decide (p.EMISSION_SPEED_FACTOR > 0) && decide (p.EMISSION_SPEED_FACTOR ≤ umul SIZE_BITS 8 8)

/-- Line 70: `DIFFICULTY_WINDOW >= 2`. -/
def assert_DIFFICULTY_WINDOW (p : Header) : Bool :=
  decide (p.DIFFICULTY_WINDOW ≥ 2)

/-- Line 71: `2 * DIFFICULTY_CUT <= DIFFICULTY_WINDOW - 2`, both sides computed
in the unsigned type `Height`. -/
def assert_DIFFICULTY_CUT (p : Header) : Bool :=
  decide (umul HEIGHT_BITS 2 p.DIFFICULTY_CUT ≤ usub HEIGHT_BITS p.DIFFICULTY_WINDOW 2)

/-- Line 77: `60 <= UPGRADE_VOTING_PERCENT && UPGRADE_VOTING_PERCENT <= 100`. -/
def assert_UPGRADE_VOTING_PERCENT (p : Header) : Bool :=
  decide (60 ≤ p.UPGRADE_VOTING_PERCENT) && decide (p.UPGRADE_VOTING_PERCENT ≤ 100)

/-- Line 78: `UPGRADE_VOTING_WINDOW > 1`. -/
def assert_UPGRADE_VOTING_WINDOW (p : Header) : Bool :=
  decide (p.UPGRADE_VOTING_WINDOW > 1)

/-- Line 84: `BLOCKCHAIN_TIMESTAMP_CHECK_WINDOW % 2 == 1`. -/
def assert_BLOCKCHAIN_TIMESTAMP_CHECK_WINDOW (p : Header) : Bool :=
  decide (p.BLOCKCHAIN_TIMESTAMP_CHECK_WINDOW % 2 = 1)

/-- Line 103: `BLOCK_CAPACITY_VOTE_MAX >= BLOCK_CAPACITY_VOTE_MIN`. -/
def assert_BLOCK_CAPACITY_VOTE (p : Header) : Bool :=
  decide (p.BLOCK_CAPACITY_VOTE_MAX ≥ p.BLOCK_CAPACITY_VOTE_MIN)

/-- All seven assertions of the header, in source order. -/
def static_asserts (p : Header) : List Bool :=
  [assert_EMISSION_SPEED_FACTOR p, assert_DIFFICULTY_WINDOW p, assert_DIFFICULTY_CUT p,
   assert_UPGRADE_VOTING_PERCENT p, assert_UPGRADE_VOTING_WINDOW p,
   assert_BLOCKCHAIN_TIMESTAMP_CHECK_WINDOW p, assert_BLOCK_CAPACITY_VOTE p]

/-- The header compiles when no assertion fails. -/
def compiles (p : Header) : Bool := (static_asserts p).all id

/-- The two assertions that mention `DIFFICULTY_WINDOW` or `DIFFICULTY_CUT`. -/
def difficulty_checks (p : Header) : Bool :=
  assert_DIFFICULTY_WINDOW p && assert_DIFFICULTY_CUT p

/-! ## Replacing the defining value of a window-size constant -/

/-- The seven window-size constants of the header. -/
inductive WindowConstant where
  | DIFFICULTY_WINDOW
  | UPGRADE_VOTING_WINDOW
  | UPGRADE_WINDOW
  | BLOCKCHAIN_TIMESTAMP_CHECK_WINDOW
  | BLOCKCHAIN_TIMESTAMP_CHECK_WINDOW_V1_3
  | BLOCK_CAPACITY_VOTE_WINDOW
  | MEIDAN_BLOCK_SIZE_WINDOW
  deriving DecidableEq, Repr

/-- The value a table gives a window-size constant. -/
def window_value (p : Header) : WindowConstant → Nat
  | .DIFFICULTY_WINDOW => p.DIFFICULTY_WINDOW
  | .UPGRADE_VOTING_WINDOW => p.UPGRADE_VOTING_WINDOW
  | .UPGRADE_WINDOW => p.UPGRADE_WINDOW
  | .BLOCKCHAIN_TIMESTAMP_CHECK_WINDOW => p.BLOCKCHAIN_TIMESTAMP_CHECK_WINDOW
  | .BLOCKCHAIN_TIMESTAMP_CHECK_WINDOW_V1_3 => p.BLOCKCHAIN_TIMESTAMP_CHECK_WINDOW_V1_3
  | .BLOCK_CAPACITY_VOTE_WINDOW => p.BLOCK_CAPACITY_VOTE_WINDOW
  | .MEIDAN_BLOCK_SIZE_WINDOW => p.MEIDAN_BLOCK_SIZE_WINDOW

/-- The table `p` with the defining value of one window-size constant replaced
by `v`, every other constant as in `p`. -/
def set_window (p : Header) (c : WindowConstant) (v : Nat) : Header :=
  match c with
  | .DIFFICULTY_WINDOW => { p with DIFFICULTY_WINDOW := v }
  | .UPGRADE_VOTING_WINDOW => { p with UPGRADE_VOTING_WINDOW := v }
  | .UPGRADE_WINDOW => { p with UPGRADE_WINDOW := v }
  | .BLOCKCHAIN_TIMESTAMP_CHECK_WINDOW => { p with BLOCKCHAIN_TIMESTAMP_CHECK_WINDOW := v }
  | .BLOCKCHAIN_TIMESTAMP_CHECK_WINDOW_V1_3 =>
      { p with BLOCKCHAIN_TIMESTAMP_CHECK_WINDOW_V1_3 := v }
  | .BLOCK_CAPACITY_VOTE_WINDOW => { p with BLOCK_CAPACITY_VOTE_WINDOW := v }
  | .MEIDAN_BLOCK_SIZE_WINDOW => { p with MEIDAN_BLOCK_SIZE_WINDOW := v }

/-- The shipped table with `DIFFICULTY_CUT` replaced by `c`. -/
def with_cut (c : Nat) : Header := { shipped with DIFFICULTY_CUT := c }

/-! ## Consumers of the constants that the header itself does not contain -/

/-- Modelled from the spec: the median of a window of timestamps used by the
TimestampValidator, which is not among the sources: the element at index
`n / 2` (integer division) of the window sorted ascending, `n` the length of
the window. -/
def median_timestamp (w : List Nat) : Nat :=
  (w.insertionSort (· ≤ ·)).getD (w.length / 2) 0

/-- Modelled from the spec: sliding the timestamp window by one block, which
drops the oldest timestamp (the head) and appends the new one. -/
def slide (w : List Nat) (t : Nat) : List Nat := w.tail ++ [t]

/-- Modelled from the spec: the varint encoder, which lives in `common/` and is
not among the sources: 7 value bits per byte, least-significant group first,
bit `0x80` set on every byte except the last. -/
def write_varint (i : Nat) : List Nat :=
  if h : i < 0x80 then [i] else (i % 0x80 + 0x80) :: write_varint (i / 0x80)
termination_by i
decreasing_by omega

/-- Modelled from the spec: clamping a size vote into
`[BLOCK_CAPACITY_VOTE_MIN, BLOCK_CAPACITY_VOTE_MAX]`, done by the SizeLimitVoter,
which is not among the sources: `max(MIN, min(v, MAX))`. -/
def clamp_vote (v : Nat) : Nat :=
  max BLOCK_CAPACITY_VOTE_MIN (min v BLOCK_CAPACITY_VOTE_MAX)

/-- A scrambled window of 59 distinct timestamps, oldest first. -/
def sample_window : List Nat :=
  (List.range 59).map (fun i => 1500000000 + 120 * ((i * 37) % 59))

/-- The shipped table with `DIFFICULTY_LAG` replaced by `v`. -/
def with_lag (v : Nat) : Header := { shipped with DIFFICULTY_LAG := v }

/-! ## Reading the genesis coinbase transaction -/

/-- Modelled from the spec: the value of one hex digit; the hex decoder lives
in `common/StringTools.hpp`, which is not among the sources. -/
def hex_value (c : Char) : Option Nat :=
  if '0' ≤ c ∧ c ≤ '9' then some (c.toNat - '0'.toNat)
  else if 'a' ≤ c ∧ c ≤ 'f' then some (c.toNat - 'a'.toNat + 10)
  else if 'A' ≤ c ∧ c ≤ 'F' then some (c.toNat - 'A'.toNat + 10)
  else none

/-- Modelled from the spec: decoding hex text to bytes, two digits per byte,
the high digit first; text of odd length or with another character has no
decoding. -/
def from_hex : List Char → Option (List Nat)
  | [] => some []
  | [_] => none
  | hi :: lo :: rest =>
    match hex_value hi, hex_value lo, from_hex rest with
    | some h, some l, some bytes => some ((h * 16 + l) :: bytes)
    | _, _, _ => none

/-- Modelled from the spec: reading a varint whose groups so far make up `acc`
and whose next group has weight `2 ^ shift`: 7 value bits per byte,
least-significant group first, the last byte being the first one without bit
`0x80`.  The result is the value and the bytes after the varint; bytes that
end inside a varint have no reading. -/
def read_varint_from (shift acc : Nat) : List Nat → Option (Nat × List Nat)
  | [] => none
  | b :: rest =>
    if b < 0x80 then some (acc + b * 2 ^ shift, rest)
    else read_varint_from (shift + 7) (acc + (b % 0x80) * 2 ^ shift) rest

/-- Modelled from the spec: reading a varint at the head of a byte sequence. -/
def read_varint (bytes : List Nat) : Option (Nat × List Nat) :=
  read_varint_from 0 0 bytes

/-- The leading fields of a coinbase transaction, up to the amount of its
first output. -/
structure CoinbaseHead where
  version : Nat
  unlock_time : Nat
  input_count : Nat
  height : Nat
  output_count : Nat
  amount : Nat
  deriving DecidableEq, Repr

/-- Modelled from the spec: reading bytes as a coinbase transaction: varint
version, varint unlock time, varint input count, input tag `0xff`, varint
height, varint output count, then the varint amount of the first output. -/
def read_coinbase (bytes : List Nat) : Option CoinbaseHead :=
  match read_varint bytes with
  | none => none
  | some (version, r1) =>
    match read_varint r1 with
    | none => none
    | some (unlock_time, r2) =>
      match read_varint r2 with
      | none => none
      | some (input_count, r3) =>
        match r3 with
        | [] => none
        | tag :: r4 =>
          if tag = 0xff then
            match read_varint r4 with
            | none => none
            | some (height, r5) =>
              match read_varint r5 with
              | none => none
              | some (output_count, r6) =>
                match read_varint r6 with
                | none => none
                | some (amount, _) =>
                  some { version := version, unlock_time := unlock_time,
                         input_count := input_count, height := height,
                         output_count := output_count, amount := amount }
          else none

/-- The leading fields of the genesis coinbase transaction of the header. -/
def genesis_coinbase : Option CoinbaseHead :=
  match from_hex GENESIS_COINBASE_TX_HEX.toList with
  | none => none
  | some bytes => read_coinbase bytes

/-- The varint that starts at byte offset 6 of the genesis coinbase transaction. -/
def genesis_amount_at_offset_6 : Option Nat :=
  match from_hex GENESIS_COINBASE_TX_HEX.toList with
  | none => none
  | some bytes => (read_varint (bytes.drop 6)).map Prod.fst

/-! ## Selecting the rule-set of a height -/

/-- Modelled from the spec: the heights at which rule-set `v` is selected by
comparing a height with the upgrade thresholds: V1 below `UPGRADE_HEIGHT_V2`,
V2 from `UPGRADE_HEIGHT_V2` up to `UPGRADE_HEIGHT_V3`, V3 from
`UPGRADE_HEIGHT_V3` up to `UPGRADE_HEIGHT_V4`, V4 (`BLOCK_VERSION_AMETHYST`)
from `UPGRADE_HEIGHT_V4` on; no other rule-set exists.  The selection is done
by the consumers of the header, which are not among the sources. -/
def selects (v h : Nat) : Prop :=
  (v = 1 ∧ h < UPGRADE_HEIGHT_V2) ∨
  (v = 2 ∧ UPGRADE_HEIGHT_V2 ≤ h ∧ h < UPGRADE_HEIGHT_V3) ∨
  (v = 3 ∧ UPGRADE_HEIGHT_V3 ≤ h ∧ h < UPGRADE_HEIGHT_V4) ∨
  (v = BLOCK_VERSION_AMETHYST ∧ UPGRADE_HEIGHT_V4 ≤ h)

instance (v h : Nat) : Decidable (selects v h) := by
  unfold selects
  infer_instance

/-- Modelled from the spec: the rule-set in force at a height, found by
comparing the height with the thresholds in ascending order. -/
def version_at (h : Nat) : Nat :=
  if h < UPGRADE_HEIGHT_V2 then 1
  else if h < UPGRADE_HEIGHT_V3 then 2
  else if h < UPGRADE_HEIGHT_V4 then 3
  else BLOCK_VERSION_AMETHYST

/-! ## Claims -/

/-- C1: for the shipped constants `2 * DIFFICULTY_CUT ≤ DIFFICULTY_WINDOW - 2`
holds over the integers (`2 * 60 ≤ 720 - 2`), the doubling stays below
`2 ^ 32` and the subtraction does not go below zero, so both sides of the
assertion as evaluated in `Height` are the mathematical values and the
assertion holds. -/
theorem C1_cut_inequality_exact :
    DIFFICULTY_CUT = 60 ∧ DIFFICULTY_WINDOW = 720 ∧
    ((2 : Int) * DIFFICULTY_CUT ≤ (DIFFICULTY_WINDOW : Int) - 2) ∧
    2 * DIFFICULTY_CUT < 2 ^ HEIGHT_BITS ∧ 2 ≤ DIFFICULTY_WINDOW ∧
    umul HEIGHT_BITS 2 DIFFICULTY_CUT = 2 * DIFFICULTY_CUT ∧
    ((usub HEIGHT_BITS DIFFICULTY_WINDOW 2 : Nat) : Int) = (DIFFICULTY_WINDOW : Int) - 2 ∧
    assert_DIFFICULTY_WINDOW shipped = true ∧ assert_DIFFICULTY_CUT shipped = true := by
  refine ⟨by decide, by decide, by decide, by decide, by decide, by decide, by decide,
    by decide, by decide⟩

/-- C2: `BLOCKCHAIN_TIMESTAMP_CHECK_WINDOW` is odd, the assertion of line 84
holds, and a window of that many timestamps has exactly one index with as many
positions before it as after it, namely `BLOCKCHAIN_TIMESTAMP_CHECK_WINDOW / 2`. -/
theorem C2_timestamp_window_odd :
    BLOCKCHAIN_TIMESTAMP_CHECK_WINDOW % 2 = 1 ∧
    assert_BLOCKCHAIN_TIMESTAMP_CHECK_WINDOW shipped = true ∧
    (∃! i, i < BLOCKCHAIN_TIMESTAMP_CHECK_WINDOW ∧
      i = BLOCKCHAIN_TIMESTAMP_CHECK_WINDOW - 1 - i) ∧
    (BLOCKCHAIN_TIMESTAMP_CHECK_WINDOW / 2 =
      BLOCKCHAIN_TIMESTAMP_CHECK_WINDOW - 1 - BLOCKCHAIN_TIMESTAMP_CHECK_WINDOW / 2) := by
  have h : BLOCKCHAIN_TIMESTAMP_CHECK_WINDOW = 59 := by decide
  refine ⟨by decide, by decide, ?_, by decide⟩
  rw [h]
  refine ⟨29, ⟨by omega, by omega⟩, ?_⟩
  intro j hj
  omega

/-! ### Counting lemmas for the median of a sorted window -/

/-- In a sorted list fewer than `k + 1` elements are below the element at index `k`. -/
theorem countP_lt_getD_le (s : List Nat) (hs : s.Sorted (· ≤ ·)) :
    ∀ k, k < s.length → s.countP (fun x => decide (x < s.getD k 0)) ≤ k := by
  induction s with
  | nil => intro k hk; simp at hk
  | cons a s ih =>
    have hs2 := List.sorted_cons.mp hs
    intro k hk
    cases k with
    | zero =>
      have h0 : s.countP (fun x => decide (x < a)) = 0 := by
        rw [List.countP_eq_zero]
        intro b hb
        have := hs2.1 b hb
        simp only [decide_eq_true_eq]
        omega
      simp [List.countP_cons, h0]
    | succ k =>
      have hk2 : k < s.length := by simpa using hk
      have := ih hs2.2 k hk2
      rw [List.getD_cons_succ, List.countP_cons]
      split <;> omega

/-- In a sorted list with at most `k` elements below `m`, the element at index
`k` is at least `m`. -/
theorem le_getD_of_countP_lt_le (m : Nat) (s : List Nat) (hs : s.Sorted (· ≤ ·)) :
    ∀ k, k < s.length → s.countP (fun x => decide (x < m)) ≤ k → m ≤ s.getD k 0 := by
  induction s with
  | nil => intro k hk; simp at hk
  | cons a s ih =>
    have hs2 := List.sorted_cons.mp hs
    intro k hk hc
    rw [List.countP_cons] at hc
    cases k with
    | zero =>
      rw [List.getD_cons_zero]
      by_contra hlt
      have : decide (a < m) = true := by simpa using hlt
      simp [this] at hc
    | succ k =>
      have hk2 : k < s.length := by simpa using hk
      rw [List.getD_cons_succ]
      by_cases ha : a < m
      · have hd : decide (a < m) = true := by simpa using ha
        rw [if_pos hd] at hc
        exact ih hs2.2 k hk2 (by omega)
      · have hmem : s.getD k 0 ∈ s := by
          rw [List.getD_eq_getElem s 0 hk2]
          exact List.getElem_mem hk2
        have := hs2.1 _ hmem
        omega

/-- The median never decreases when the window slides onto a timestamp that
is at least the median, for a window of any positive length. -/
theorem median_slide_ge (w : List Nat) (t : Nat) (hw : 0 < w.length)
    (ht : median_timestamp w ≤ t) :
    median_timestamp w ≤ median_timestamp (slide w t) := by
  have hlen : (slide w t).length = w.length := by
    unfold slide
    cases w with
    | nil => simp at hw
    | cons a l => simp
  have hk : w.length / 2 < w.length := Nat.div_lt_self hw (by decide)
  -- at most `n / 2` elements of the window are below its median
  have h1 : w.countP (fun x => decide (x < median_timestamp w)) ≤ w.length / 2 := by
    rw [← (List.perm_insertionSort (· ≤ ·) w).countP_eq]
    have := countP_lt_getD_le (w.insertionSort (· ≤ ·)) (List.sorted_insertionSort _ w)
      (w.length / 2) (by rw [List.length_insertionSort]; exact hk)
    exact this
  -- sliding does not add an element below the median
  have h2 : (slide w t).countP (fun x => decide (x < median_timestamp w)) ≤
      w.countP (fun x => decide (x < median_timestamp w)) := by
    unfold slide
    cases w with
    | nil => simp at hw
    | cons a l =>
      have hnt : ¬ t < median_timestamp (a :: l) := by omega
      simp only [List.tail_cons, List.countP_append, List.countP_cons, List.countP_nil]
      simp only [hnt, decide_False, Bool.false_eq_true, if_false]
      omega
  have h3 : ((slide w t).insertionSort (· ≤ ·)).countP
      (fun x => decide (x < median_timestamp w)) ≤ w.length / 2 := by
    rw [(List.perm_insertionSort (· ≤ ·) (slide w t)).countP_eq]
    omega
  have := le_getD_of_countP_lt_le (median_timestamp w) ((slide w t).insertionSort (· ≤ ·))
    (List.sorted_insertionSort _ _) (w.length / 2)
    (by rw [List.length_insertionSort, hlen]; exact hk) h3
  show median_timestamp w ≤ ((slide w t).insertionSort (· ≤ ·)).getD ((slide w t).length / 2) 0
  rw [hlen]
  exact this

/-- C3: for every window `w` of `BLOCKCHAIN_TIMESTAMP_CHECK_WINDOW` timestamps
and every new timestamp `t` that is at least the median of `w`, the window
obtained by dropping the oldest timestamp and appending `t` has a median that
is at least the median of `w`; the median is the element at index `n / 2` of
the window sorted ascending. -/
theorem C3_median_monotone (w : List Nat) (t : Nat)
    (hw : w.length = BLOCKCHAIN_TIMESTAMP_CHECK_WINDOW)
    (ht : t ≥ median_timestamp w) :
    median_timestamp (slide w t) ≥ median_timestamp w := by
  have hpos : 0 < w.length := by rw [hw]; decide
  exact median_slide_ge w t hpos ht

/-- Witness of C3 on a scrambled window of 59 timestamps whose median is
`1500003480`, slid onto a newer timestamp. -/
theorem C3_median_monotone_witness :
    sample_window.length = BLOCKCHAIN_TIMESTAMP_CHECK_WINDOW ∧
    median_timestamp sample_window = 1500003480 ∧
    median_timestamp (slide sample_window 1500007200) ≥ median_timestamp sample_window :=
  ⟨by decide, by decide, C3_median_monotone sample_window 1500007200 (by decide) (by decide)⟩

/-- C4: `UPGRADE_VOTING_PERCENT` lies in the closed range `[60, 100]`, and the
assertion of line 77 holds for the shipped table. -/
theorem C4_voting_percent_in_range :
    60 ≤ UPGRADE_VOTING_PERCENT ∧ UPGRADE_VOTING_PERCENT ≤ 100 ∧
    assert_UPGRADE_VOTING_PERCENT shipped = true := by
  refine ⟨by decide, by decide, by decide⟩

/-- C5: every window-size constant of the shipped table is positive. -/
theorem C5_windows_positive :
    0 < DIFFICULTY_WINDOW ∧ 0 < UPGRADE_VOTING_WINDOW ∧ 0 < UPGRADE_WINDOW ∧
    0 < BLOCKCHAIN_TIMESTAMP_CHECK_WINDOW ∧ 0 < BLOCKCHAIN_TIMESTAMP_CHECK_WINDOW_V1_3 ∧
    0 < BLOCK_CAPACITY_VOTE_WINDOW ∧ 0 < MEIDAN_BLOCK_SIZE_WINDOW ∧
    (∀ c : WindowConstant, 0 < window_value shipped c) := by
  refine ⟨by decide, by decide, by decide, by decide, by decide, by decide, by decide, ?_⟩
  intro c
  cases c <;> decide

/-- A cut whose doubling does not wrap is rejected as soon as it is too large. -/
theorem cut_rejected_without_wrap (c : Nat) (hfit : 2 * c < 2 ^ HEIGHT_BITS)
    (hbig : 2 * c > DIFFICULTY_WINDOW - 2) : difficulty_checks (with_cut c) = false := by
  have hw : DIFFICULTY_WINDOW = 720 := by decide
  have hs : usub HEIGHT_BITS 720 2 = 718 := by decide
  have hm : umul HEIGHT_BITS 2 c = 2 * c := by
    unfold umul
    exact Nat.mod_eq_of_lt hfit
  have hgt : ¬ (2 * c ≤ 718) := by omega
  simp [difficulty_checks, assert_DIFFICULTY_WINDOW, assert_DIFFICULTY_CUT, with_cut, shipped,
    hw, hs, hm, hgt]

/-- C6, the code at the failing input: `2147483648` is representable as a
`Height` and `2 * 2147483648 > DIFFICULTY_WINDOW - 2` over the integers, but
the doubling wraps to `0` in 32 bits, so with `DIFFICULTY_CUT` replaced by it
both assertions on `DIFFICULTY_WINDOW` and `DIFFICULTY_CUT` hold and the whole
header compiles. -/
theorem C6_wrapped_cut_accepted :
    (2147483648 : Nat) < 2 ^ HEIGHT_BITS ∧
    ((2 : Int) * 2147483648 > (DIFFICULTY_WINDOW : Int) - 2) ∧
    umul HEIGHT_BITS 2 2147483648 = 0 ∧
    assert_DIFFICULTY_WINDOW (with_cut 2147483648) = true ∧
    assert_DIFFICULTY_CUT (with_cut 2147483648) = true ∧
    difficulty_checks (with_cut 2147483648) = true ∧
    compiles (with_cut 2147483648) = true := by
  refine ⟨by decide, by decide, by decide, by decide, by decide, by decide, by decide⟩

/-- Two tables on which the assertions evaluate alike compile alike. -/
theorem compiles_congr {p q : Header} (h : static_asserts p = static_asserts q) :
    compiles p = compiles q := by
  unfold compiles
  rw [h]

/-- The header as shipped passes all seven assertions. -/
theorem shipped_compiles : compiles shipped = true := by decide

/-- C7, as stated, fails: with `UPGRADE_WINDOW` replaced by `0` every
assertion of the header still holds, so not every zeroed window-size constant
makes an assertion fail. -/
theorem C7_zero_window_not_always_rejected :
    window_value (set_window shipped WindowConstant.UPGRADE_WINDOW 0)
      WindowConstant.UPGRADE_WINDOW = 0 ∧
    compiles (set_window shipped WindowConstant.UPGRADE_WINDOW 0) = true ∧
    ¬ (∀ c : WindowConstant, compiles (set_window shipped c 0) = false) := by
  refine ⟨by decide, by decide, ?_⟩
  intro h
  have h1 := h WindowConstant.UPGRADE_WINDOW
  revert h1
  decide

/-- C7, amended: replacing the defining value of a window-size constant by `0`
makes an assertion fail exactly for `DIFFICULTY_WINDOW`, `UPGRADE_VOTING_WINDOW`
and `BLOCKCHAIN_TIMESTAMP_CHECK_WINDOW`; the other four constants are read by
no assertion, so every value of them leaves all assertions holding. -/
theorem C7_zero_window_rejected_iff :
    (∀ c : WindowConstant, compiles (set_window shipped c 0) = false ↔
      (c = WindowConstant.DIFFICULTY_WINDOW ∨ c = WindowConstant.UPGRADE_VOTING_WINDOW ∨
       c = WindowConstant.BLOCKCHAIN_TIMESTAMP_CHECK_WINDOW)) ∧
    assert_DIFFICULTY_WINDOW (set_window shipped WindowConstant.DIFFICULTY_WINDOW 0) = false ∧
    assert_UPGRADE_VOTING_WINDOW
      (set_window shipped WindowConstant.UPGRADE_VOTING_WINDOW 0) = false ∧
    assert_BLOCKCHAIN_TIMESTAMP_CHECK_WINDOW
      (set_window shipped WindowConstant.BLOCKCHAIN_TIMESTAMP_CHECK_WINDOW 0) = false ∧
    (∀ v : Nat,
      compiles (set_window shipped WindowConstant.UPGRADE_WINDOW v) = true ∧
      compiles (set_window shipped WindowConstant.BLOCKCHAIN_TIMESTAMP_CHECK_WINDOW_V1_3 v) = true ∧
      compiles (set_window shipped WindowConstant.BLOCK_CAPACITY_VOTE_WINDOW v) = true ∧
      compiles (set_window shipped WindowConstant.MEIDAN_BLOCK_SIZE_WINDOW v) = true) := by
  refine ⟨?_, by decide, by decide, by decide, ?_⟩
  · intro c
    cases c <;> decide
  · intro v
    exact ⟨(compiles_congr rfl).trans shipped_compiles,
      (compiles_congr rfl).trans shipped_compiles,
      (compiles_congr rfl).trans shipped_compiles,
      (compiles_congr rfl).trans shipped_compiles⟩

/-- C8: under the varint encoding each base58 prefix constant encodes to the
bytes its comment documents. -/
theorem C8_prefix_varint_bytes :
    write_varint ADDRESS_BASE58_PREFIX_AMETHYST = [0xce, 0xf6, 0x22] ∧
    write_varint SENDPROOF_BASE58_PREFIX = [0xce, 0xf5, 0xe2, 0x80, 0x91, 0xdd, 0x13] ∧
    write_varint VIEWONLYWALLET_BASE58_PREFIX = [0xce, 0xf5, 0xf4, 0xbd, 0xd1, 0x71] := by
  refine ⟨?_, ?_, ?_⟩
  · simp [ADDRESS_BASE58_PREFIX_AMETHYST, wrap, write_varint]
  · simp [SENDPROOF_BASE58_PREFIX, wrap, write_varint]
  · simp [VIEWONLYWALLET_BASE58_PREFIX, wrap, write_varint]

/-- C9, as stated, fails: the legacy window `BLOCKCHAIN_TIMESTAMP_CHECK_WINDOW_V1_3`
is `60`, which is not odd. -/
theorem C9_legacy_window_not_odd :
    BLOCKCHAIN_TIMESTAMP_CHECK_WINDOW_V1_3 = 60 ∧
    ¬ (BLOCKCHAIN_TIMESTAMP_CHECK_WINDOW_V1_3 % 2 = 1) := by
  refine ⟨by decide, by decide⟩

/-- C9, amended: of the two timestamp windows only
`BLOCKCHAIN_TIMESTAMP_CHECK_WINDOW` is odd; the legacy window
`BLOCKCHAIN_TIMESTAMP_CHECK_WINDOW_V1_3` is even, no assertion reads it, and a
window of that many timestamps has no index with as many positions before it
as after it. -/
theorem C9_only_current_window_odd :
    BLOCKCHAIN_TIMESTAMP_CHECK_WINDOW % 2 = 1 ∧
    BLOCKCHAIN_TIMESTAMP_CHECK_WINDOW_V1_3 % 2 = 0 ∧
    (¬ ∃ i, i < BLOCKCHAIN_TIMESTAMP_CHECK_WINDOW_V1_3 ∧
      i = BLOCKCHAIN_TIMESTAMP_CHECK_WINDOW_V1_3 - 1 - i) ∧
    (∀ v : Nat, static_asserts
      (set_window shipped WindowConstant.BLOCKCHAIN_TIMESTAMP_CHECK_WINDOW_V1_3 v) =
        static_asserts shipped) := by
  have h : BLOCKCHAIN_TIMESTAMP_CHECK_WINDOW_V1_3 = 60 := by decide
  refine ⟨by decide, by decide, ?_, fun _ => rfl⟩
  rw [h]
  rintro ⟨i, hi, he⟩
  omega

/-- C10: `BLOCK_CAPACITY_VOTE_MIN ≤ BLOCK_CAPACITY_VOTE_MAX`, the assertion of
line 103 holds, and for every vote `v` the clamped vote lies inside the bounds
and equals `v` when `v` is already inside them. -/
theorem C10_clamp_vote_in_bounds :
    BLOCK_CAPACITY_VOTE_MIN ≤ BLOCK_CAPACITY_VOTE_MAX ∧
    assert_BLOCK_CAPACITY_VOTE shipped = true ∧
    ∀ v : Nat,
      (BLOCK_CAPACITY_VOTE_MIN ≤ clamp_vote v ∧ clamp_vote v ≤ BLOCK_CAPACITY_VOTE_MAX) ∧
      (BLOCK_CAPACITY_VOTE_MIN ≤ v ∧ v ≤ BLOCK_CAPACITY_VOTE_MAX → clamp_vote v = v) := by
  have hmin : BLOCK_CAPACITY_VOTE_MIN = 100000 := by decide
  have hmax : BLOCK_CAPACITY_VOTE_MAX = 2000000 := by decide
  refine ⟨by decide, by decide, ?_⟩
  intro v
  unfold clamp_vote
  rw [hmin, hmax]
  omega

/-- Witness of C10: a vote inside the bounds is kept, a vote below them becomes
the minimum and a vote above them the maximum. -/
theorem C10_clamp_vote_witness :
    clamp_vote 150000 = 150000 ∧ clamp_vote 5 = BLOCK_CAPACITY_VOTE_MIN ∧
    clamp_vote 3000000 = BLOCK_CAPACITY_VOTE_MAX :=
  ⟨(C10_clamp_vote_in_bounds.2.2 150000).2 (by decide), by decide, by decide⟩

/-- C11: `EMISSION_SPEED_FACTOR` is greater than `0` and at most
`8 * sizeof(uint64_t) = 64`, and the assertion of line 43 holds. -/
theorem C11_emission_speed_factor_bounds :
    EMISSION_SPEED_FACTOR = 18 ∧
    0 < EMISSION_SPEED_FACTOR ∧ EMISSION_SPEED_FACTOR ≤ umul SIZE_BITS 8 8 ∧
    umul SIZE_BITS 8 8 = 64 ∧ EMISSION_SPEED_FACTOR ≤ 64 ∧
    assert_EMISSION_SPEED_FACTOR shipped = true := by
  refine ⟨by decide, by decide, by decide, by decide, by decide, by decide⟩

/-- C12, as stated, fails: the genesis coinbase transaction decodes, the varint
at byte offset 6 is the amount of its single output, `2000000000000`, and that
amount is larger than `MONEY_SUPPLY = 100000000000`. -/
theorem C12_genesis_amount_exceeds_supply :
    genesis_amount_at_offset_6 = some 2000000000000 ∧
    MONEY_SUPPLY = 100000000000 ∧
    ¬ (2000000000000 ≤ MONEY_SUPPLY) ∧
    ¬ (∃ a, genesis_amount_at_offset_6 = some a ∧ a ≤ MONEY_SUPPLY) := by
  have h : genesis_amount_at_offset_6 = some 2000000000000 := by decide
  refine ⟨h, by decide, by decide, ?_⟩
  rintro ⟨a, ha, hle⟩
  rw [h] at ha
  cases ha
  revert hle
  decide

/-- C12, amended: the genesis coinbase transaction has version 1, unlock time
10, one input with tag `0xff` and height 0, and one output; the amount of that
output, the varint at byte offset 6, is `2000000000000`, which is
`20 * MONEY_SUPPLY` and fits in a 64-bit `Amount`. -/
theorem C12_genesis_amount_value :
    genesis_coinbase = some { version := 1, unlock_time := 10, input_count := 1, height := 0,
                              output_count := 1, amount := 2000000000000 } ∧
    genesis_amount_at_offset_6 = some 2000000000000 ∧
    2000000000000 = 20 * MONEY_SUPPLY ∧
    MONEY_SUPPLY < 2000000000000 ∧
    2000000000000 < 2 ^ AMOUNT_BITS := by
  refine ⟨by decide, by decide, by decide, by decide, by decide⟩

/-- C13: for every `Timestamp` value `t` the function
`LOCKED_TX_ALLOWED_DELTA_SECONDS` returns `t * LOCKED_TX_ALLOWED_DELTA_BLOCKS`,
which is `t` and stays below `2 ^ 32`, so the 32-bit product does not wrap; at
`DIFFICULTY_TARGET` it returns `120`. -/
theorem C13_locked_delta_seconds_identity (t : Nat) (ht : t < 2 ^ TIMESTAMP_BITS) :
    LOCKED_TX_ALLOWED_DELTA_SECONDS t = t * LOCKED_TX_ALLOWED_DELTA_BLOCKS ∧
    t * LOCKED_TX_ALLOWED_DELTA_BLOCKS = t ∧
    t * LOCKED_TX_ALLOWED_DELTA_BLOCKS < 2 ^ TIMESTAMP_BITS ∧
    LOCKED_TX_ALLOWED_DELTA_SECONDS t = t ∧
    LOCKED_TX_ALLOWED_DELTA_SECONDS DIFFICULTY_TARGET = 120 := by
  have hb : LOCKED_TX_ALLOWED_DELTA_BLOCKS = 1 := by decide
  have hm : LOCKED_TX_ALLOWED_DELTA_SECONDS t = t := by
    unfold LOCKED_TX_ALLOWED_DELTA_SECONDS umul
    rw [hb, Nat.mul_one]
    exact Nat.mod_eq_of_lt ht
  refine ⟨?_, ?_, ?_, hm, by decide⟩
  · rw [hm, hb, Nat.mul_one]
  · rw [hb, Nat.mul_one]
  · rw [hb, Nat.mul_one]
    exact ht

/-- Witness of C13 at the largest `Timestamp`. -/
theorem C13_locked_delta_seconds_witness :
    (4294967295 : Nat) < 2 ^ TIMESTAMP_BITS ∧
    LOCKED_TX_ALLOWED_DELTA_SECONDS 4294967295 = 4294967295 :=
  ⟨by decide, (C13_locked_delta_seconds_identity 4294967295 (by decide)).2.2.2.1⟩

/-- C14: the upgrade heights are strictly increasing,
`0 < UPGRADE_HEIGHT_V2 < UPGRADE_HEIGHT_V3 < UPGRADE_HEIGHT_V4 ≤ MAX_BLOCK_NUMBER`;
every height selects exactly one rule-set, the one found by comparing the
height with the thresholds, and that rule-set is non-decreasing in the height. -/
theorem C14_upgrade_heights_ordered :
    (0 < UPGRADE_HEIGHT_V2 ∧ UPGRADE_HEIGHT_V2 < UPGRADE_HEIGHT_V3 ∧
      UPGRADE_HEIGHT_V3 < UPGRADE_HEIGHT_V4 ∧ UPGRADE_HEIGHT_V4 ≤ MAX_BLOCK_NUMBER) ∧
    (∀ h : Nat, ∃! v, selects v h) ∧
    (∀ h : Nat, selects (version_at h) h) ∧
    (∀ h h2 : Nat, h ≤ h2 → version_at h ≤ version_at h2) := by
  have h2 : UPGRADE_HEIGHT_V2 = 546603 := by decide
  have h3 : UPGRADE_HEIGHT_V3 = 985549 := by decide
  have h4 : UPGRADE_HEIGHT_V4 = 1792117 := by decide
  have ha : BLOCK_VERSION_AMETHYST = 4 := by decide
  have hsel : ∀ h : Nat, selects (version_at h) h := by
    intro h
    unfold selects version_at
    rw [h2, h3, h4, ha]
    split_ifs <;> omega
  refine ⟨⟨by decide, by decide, by decide, by decide⟩, ?_, hsel, ?_⟩
  · intro h
    refine ⟨version_at h, hsel h, ?_⟩
    intro v hv
    unfold selects at hv
    unfold version_at
    rw [h2, h3, h4, ha] at hv
    rw [h2, h3, h4, ha]
    split_ifs <;> omega
  · intro h k hle
    unfold version_at
    rw [h2, h3, h4, ha]
    split_ifs <;> omega

/-- Witness of C14 at the heights around each threshold. -/
theorem C14_upgrade_heights_witness :
    version_at 0 = 1 ∧ version_at 546602 = 1 ∧ version_at 546603 = 2 ∧
    version_at 985548 = 2 ∧ version_at 985549 = 3 ∧ version_at 1792116 = 3 ∧
    version_at 1792117 = 4 ∧ version_at 500000000 = 4 ∧
    version_at 546602 ≤ version_at 1792117 :=
  ⟨by decide, by decide, by decide, by decide, by decide, by decide, by decide, by decide,
    C14_upgrade_heights_ordered.2.2.2 546602 1792117 (by decide)⟩

/-- C15: `DIFFICULTY_LAG + 2 * DIFFICULTY_CUT + 2 ≤ DIFFICULTY_WINDOW` over the
integers, so dropping `DIFFICULTY_LAG` samples from `DIFFICULTY_WINDOW` and then
`DIFFICULTY_CUT` from each end leaves at least 2 samples (585 of them); the
assertions do not read `DIFFICULTY_LAG`, and with a lag of 600 they all hold
while the bound fails. -/
theorem C15_trimmed_window_nonempty :
    ((DIFFICULTY_LAG : Int) + 2 * (DIFFICULTY_CUT : Int) + 2 ≤ (DIFFICULTY_WINDOW : Int)) ∧
    DIFFICULTY_LAG + 2 * DIFFICULTY_CUT + 2 ≤ DIFFICULTY_WINDOW ∧
    2 ≤ DIFFICULTY_WINDOW - DIFFICULTY_LAG - DIFFICULTY_CUT - DIFFICULTY_CUT ∧
    DIFFICULTY_WINDOW - DIFFICULTY_LAG - DIFFICULTY_CUT - DIFFICULTY_CUT = 585 ∧
    (∀ v : Nat, static_asserts (with_lag v) = static_asserts shipped) ∧
    compiles (with_lag 600) = true ∧
    ¬ (600 + 2 * DIFFICULTY_CUT + 2 ≤ DIFFICULTY_WINDOW) := by
  refine ⟨by decide, by decide, by decide, by decide, fun _ => rfl, by decide, by decide⟩

/-- C16: `DIFFICULTY_TARGET` divides `24 * 60 * 60`, so
`EXPECTED_NUMBER_OF_BLOCKS_PER_DAY * DIFFICULTY_TARGET = 86400` with
`EXPECTED_NUMBER_OF_BLOCKS_PER_DAY = 720`; `UPGRADE_VOTING_WINDOW = 720 =
DIFFICULTY_WINDOW` and `UPGRADE_WINDOW = 7 * UPGRADE_VOTING_WINDOW = 5040`, and
neither the quotient nor the product exceeds the range of `Height`. -/
theorem C16_blocks_per_day_exact :
    DIFFICULTY_TARGET ∣ 24 * 60 * 60 ∧
    (24 * 60 * 60) % DIFFICULTY_TARGET = 0 ∧
    EXPECTED_NUMBER_OF_BLOCKS_PER_DAY * DIFFICULTY_TARGET = 86400 ∧
    EXPECTED_NUMBER_OF_BLOCKS_PER_DAY = 720 ∧
    UPGRADE_VOTING_WINDOW = 720 ∧ UPGRADE_VOTING_WINDOW = DIFFICULTY_WINDOW ∧
    UPGRADE_WINDOW = 7 * UPGRADE_VOTING_WINDOW ∧ UPGRADE_WINDOW = 5040 ∧
    24 * 60 * 60 < 2 ^ 31 ∧
    24 * 60 * 60 / DIFFICULTY_TARGET < 2 ^ HEIGHT_BITS ∧
    EXPECTED_NUMBER_OF_BLOCKS_PER_DAY * 7 < 2 ^ HEIGHT_BITS := by
  refine ⟨Nat.dvd_of_mod_eq_zero (by decide), by decide, by decide, by decide, by decide,
    by decide, by decide, by decide, by decide, by decide, by decide⟩

end cn.parameters
